import Mathlib

/-!
Verification development for the ewallet-ums user-management microservice.

The credential/session subsystem is embedded shallowly:

* Pure Go functions become Lean functions; the database (`gorm.DB` holding
  the `users` and `user_sessions` tables) becomes an explicit `Store` value
  threaded through every operation.
* Go functions returning `(value, error)` become functions returning the
  value together with an `Option String` error component (or `Except String`
  when the zero value on the error path is never observed by callers).
* Times (`time.Time`) become `Nat` instants; durations become `Nat`.
* A JWT string is a self-describing signed structure; it is embedded as the
  inductive `TokenStr`: the empty string, a structurally malformed string, a
  string whose signature check fails, or a well-signed encoding of a
  `ClaimToken` payload (the encoding of a payload is injective, so a signed
  token is identified with its payload).

Definitions carry the names of the Go functions they embed, in namespaces
mirroring the Go packages (`helpers`, `repository`, `services`, `api`,
`cmd`).  The `helpers` token codec, the `models` structs, the
`LogoutService`, the `constants` strings and the repository method
`UpdateTokenByRefreshToken` are part of this repository but their files are
not present under `src/`; those definitions are modelled from the spec and
say so in their doc comments.  Everything else is translated directly from
the Go sources.
-/

/-- Modelled from the spec: the configuration structure
`\x7bsigningKey, accessDuration, refreshDuration\x7d` of section 9 (the signing
key plays no role in the shallow embedding, where a well-signed token is
identified with its payload).  `accessDuration` is the validity window of
the `"token"` kind and `refreshDuration` that of the `"refresh_token"`
kind; the spec states access is much smaller than refresh. -/
structure TokenConfig where
  accessDuration : Nat
  refreshDuration : Nat
deriving DecidableEq, Repr

/-- The decoded identity payload carried by a token: `helpers.ClaimToken`
(account id, username, full name, email, issued-at, expires-at), per
section 3 of the spec.  The file defining it is not under `src/`; the field
set is taken from the spec and from the fields read by the sources
(`UserID`, `Username`, `FullName`, `Email` in the refresh service and
handler, `ExpiresAt` in the middleware). -/
structure ClaimToken where
  userID : Nat
  username : String
  fullName : String
  email : String
  issuedAt : Nat
  expiresAt : Nat
deriving DecidableEq, Repr

/-- A bearer-token string.  The Go code only ever distinguishes: the empty
string, strings the codec rejects structurally, strings whose signature
check fails, and well-signed tokens, which decode to their `ClaimToken`
payload.  JWT encoding of a payload is injective, so a well-signed token is
identified with its payload. -/
inductive TokenStr where
  | emptyTok : TokenStr
  | malformedTok (raw : String) : TokenStr
  | badSigTok (payload : ClaimToken) : TokenStr
  | signedTok (payload : ClaimToken) : TokenStr
deriving DecidableEq, Repr

instance : Inhabited TokenStr := ⟨.emptyTok⟩

/-- The `models.User` row: identifier, username, full name, email, stored
password hash.  The models file is not under `src/`; the fields are the
ones the sources read (`ID`, `Username`, `FullName`, `Email`, `Password`). -/
structure User where
  id : Nat
  username : String
  fullName : String
  email : String
  password : String
deriving DecidableEq, Repr

/-- The `models.UserSession` row, fields as written by `LoginService.Login`
(`UserID`, `Token`, `RefreshToken`, `TokenExpired`, `RefreshTokenExpired`)
plus the primary key `ID` read by `GetUserSessionByToken`. -/
structure UserSession where
  id : Nat
  userID : Nat
  token : TokenStr
  refreshToken : TokenStr
  tokenExpired : Nat
  refreshTokenExpired : Nat
deriving DecidableEq, Repr

/-- The database state: the `users` and `user_sessions` tables. -/
structure Store where
  users : List User
  sessions : List UserSession
deriving DecidableEq, Repr

/-- `models.LoginRequest` as consumed by `LoginService.Login`. -/
structure LoginRequest where
  username : String
  password : String
deriving DecidableEq, Repr

/-- `models.LoginResponse` as populated by `LoginService.Login`; the field
defaults are the Go zero values, so `{}` is the zero response the service
returns on every error path. -/
structure LoginResponse where
  userID : Nat := 0
  username : String := ""
  fullName : String := ""
  email : String := ""
  token : TokenStr := .emptyTok
  refreshToken : TokenStr := .emptyTok
deriving DecidableEq, Repr, Inhabited

/-- `models.RefreshTokenResponse`: the only field the sources populate is
`Token`; its default is the Go zero value. -/
structure RefreshTokenResponse where
  token : TokenStr := .emptyTok
deriving DecidableEq, Repr, Inhabited

/-- Modelled from the spec: `helpers.MapTypeToken`, the map from token kind
to its fixed configured duration (section 4.2: each kind has its own
validity window).  The callers under `src/` use exactly the keys `"token"`
and `"refresh_token"`; a Go map lookup on any other key yields the zero
duration. -/
def helpers.MapTypeToken (cfg : TokenConfig) (kind : String) : Nat :=
  if kind = "token" then cfg.accessDuration
  else if kind = "refresh_token" then cfg.refreshDuration
  else 0

/-- Modelled from the spec: `helpers.GenerateToken` (the codec operation
`issue` of section 4.2), whose file is not under `src/`.  It signs a
payload holding the identity fields, the issuance instant and
`expiresAt = issuedAt + duration(kind)`.  The argument order is the one
used by every caller under `src/`:
`(userId, username, fullName, tokenType, email, now)`. -/
def helpers.GenerateToken (cfg : TokenConfig) (userId : Nat)
    (username fullName tokenType email : String) (now : Nat) : TokenStr :=
  .signedTok
    { userID := userId
      username := username
      fullName := fullName
      email := email
      issuedAt := now
      expiresAt := now + helpers.MapTypeToken cfg tokenType }

/-- Modelled from the spec: `helpers.ValidateToken` (the codec operation
`decode` of section 4.2), whose file is not under `src/`.  It fails on a
bad signature or a structurally malformed input (the empty string is not a
well-formed token) and otherwise returns the payload.  Per section 4.2 the
codec does not itself reject expired tokens: expiry is carried as data. -/
def helpers.ValidateToken (t : TokenStr) : Except String ClaimToken :=
  match t with
  | .emptyTok => .error "token is malformed"
  | .malformedTok _ => .error "token is malformed"
  | .badSigTok _ => .error "invalid token signature"
  | .signedTok payload => .ok payload

/-- Modelled from the spec: `constants.SuccessMessage`, the uniform success
message of the response envelope (section 6); the constants file is not
under `src/`. -/
def constants.SuccessMessage : String := "success"

/-- `UserRepository.GetUserByUsername` (src/unnamed/part_000): `First` on
rows with the given username — error when no row matches (record not
found) — then a defensive error when the found row has the zero id. -/
def repository.GetUserByUsername (st : Store) (username : String) :
    Except String User :=
  match st.users.find? (fun u => decide (u.username = username)) with
  | none => .error "record not found"
  | some user => if user.id = 0 then .error "user not found" else .ok user

/-- `UserRepository.InsertNewUserSession` (src/unnamed/part_000):
`DB.Create` appends the row; the database assigns the auto-increment
primary key, modelled as one more than the current row count (in
particular it is never zero). -/
def repository.InsertNewUserSession (st : Store) (s : UserSession) : Store :=
  { st with sessions := st.sessions ++ [{ s with id := st.sessions.length + 1 }] }

/-- `UserRepository.DeleteUserSession` (src/unnamed/part_000):
`DELETE FROM user_sessions WHERE token = ?` — removes every row whose
token column equals the argument and reports no error either way. -/
def repository.DeleteUserSession (st : Store) (token : TokenStr) :
    Store × Option String :=
  ({ st with sessions := st.sessions.filter (fun s => decide (s.token ≠ token)) },
   none)

/-- `UserRepository.GetUserSessionByToken` (src/unnamed/part_000): `First`
on rows whose token column equals the argument — error when no row matches
(record not found) — then a defensive error when the found row has the
zero id. -/
def repository.GetUserSessionByToken (st : Store) (token : TokenStr) :
    Except String UserSession :=
  match st.sessions.find? (fun s => decide (s.token = token)) with
  | none => .error "record not found"
  | some s => if s.id = 0 then .error "user session not found" else .ok s

/-- Modelled from the spec: `UserRepository.UpdateTokenByRefreshToken`,
whose file is not under `src/` (only its caller, the refresh service, is).
Per sections 3, 4.3 and 8 it updates the Session row whose refresh-token
column equals the presented value, replacing only the access-token field
(identifier and the other columns untouched), and fails with the
session-not-found error when no row matches. -/
def repository.UpdateTokenByRefreshToken (st : Store)
    (token refreshToken : TokenStr) : Except String Store :=
  if st.sessions.any (fun s => decide (s.refreshToken = refreshToken)) then
    .ok { st with
          sessions := st.sessions.map
            (fun s => if s.refreshToken = refreshToken
                      then { s with token := token } else s) }
  else .error "session not found"

/-- `LoginService.Login` (src/internal/services/login.go, lines 19-62).
The bcrypt comparison is an injected dependency here: `verify hash pw`
stands for `bcrypt.CompareHashAndPassword` succeeding (section 4.1).  The
Go bcrypt error text appended by `fmt.Errorf` is elided from the wrapped
message.  Returns the Go pair (response, error) together with the store
after the call. -/
def services.Login (verify : String → String → Bool) (cfg : TokenConfig)
    (st : Store) (req : LoginRequest) (now : Nat) :
    LoginResponse × Store × Option String :=
  match repository.GetUserByUsername st req.username with
  | .error e => ({}, st, some ("failed to get user by username, " ++ e))
  | .ok userDetail =>
    if verify userDetail.password req.password then
      let token := helpers.GenerateToken cfg userDetail.id userDetail.username
        userDetail.fullName "token" userDetail.email now
      let refreshToken := helpers.GenerateToken cfg userDetail.id
        userDetail.username userDetail.fullName "refresh_token"
        userDetail.email now
      let userSession : UserSession :=
        { id := 0
          userID := userDetail.id
          token := token
          refreshToken := refreshToken
          tokenExpired := now + helpers.MapTypeToken cfg "token"
          refreshTokenExpired := now + helpers.MapTypeToken cfg "refresh_token" }
      ({ userID := userDetail.id
         username := userDetail.username
         fullName := userDetail.fullName
         email := userDetail.email
         token := token
         refreshToken := refreshToken },
       repository.InsertNewUserSession st userSession, none)
    else ({}, st, some "incorrect password")

/-- `TokenValidationService.TokenValidation` (src/internal/services/login.go,
lines 77-91): decode the token, then require a session row whose token
column equals it; each failure is wrapped with the Go message prefix.  No
clock is consulted anywhere on this path. -/
def services.TokenValidation (st : Store) (token : TokenStr) :
    Except String ClaimToken :=
  match helpers.ValidateToken token with
  | .error e => .error ("failed to validate token: " ++ e)
  | .ok claimToken =>
    match repository.GetUserSessionByToken st token with
    | .error e => .error ("failed to get user session: " ++ e)
    | .ok _ => .ok claimToken

/-- `RefreshTokenService.RefreshToken` (src/internal/services/login.go,
lines 108-123): generates a new token from the claim identity fields —
note the source passes the token type `"refresh_token"` at line 111 — and
stores it in the token column of the row matching the presented refresh
token.  Returns the Go pair (response, error) together with the store
after the call. -/
def services.RefreshToken (cfg : TokenConfig) (st : Store)
    (refreshToken : TokenStr) (tokenClaim : ClaimToken) (now : Nat) :
    RefreshTokenResponse × Store × Option String :=
  let token := helpers.GenerateToken cfg tokenClaim.userID tokenClaim.username
    tokenClaim.fullName "refresh_token" tokenClaim.email now
  match repository.UpdateTokenByRefreshToken st token refreshToken with
  | .error e => ({}, st, some ("failed to update new token " ++ e))
  | .ok st2 => ({ token := token }, st2, none)

/-- Modelled from the spec: `LogoutService.Logout`, whose file is not under
`src/` (only its handler caller and the repository delete are).  Per
section 4.3 it deletes the Session row matching the presented access token
via the repository delete, validating neither signature nor expiry. -/
def services.Logout (st : Store) (token : TokenStr) : Store × Option String :=
  repository.DeleteUserSession st token

/-- Which check of the authentication gate tripped; each corresponds to one
distinct log line of `MiddlewareValidateAuth`. -/
inductive AuthStep where
  | emptyAuth : AuthStep
  | sessionLookup : AuthStep
  | decodeTok : AuthStep
  | expiredTok : AuthStep
deriving DecidableEq, Repr

/-- Outcome of the authentication gate: abort with 401, or proceed with the
decoded claim stored in the request context. -/
inductive AuthOutcome where
  | unauthorized : AuthOutcome
  | proceed (claim : ClaimToken) : AuthOutcome
deriving DecidableEq, Repr

/-- `MiddlewareValidateAuth` (src/cmd/middleware.go, lines 13-48): require a
non-empty Authorization header, then a session row matching it, then a
successful decode, then reject when the current instant strictly exceeds
the decoded expiry; otherwise proceed with the claim.  The first component
records which check tripped (each failure branch logs a distinct message in
the source); `none` means all checks passed. -/
def cmd.MiddlewareValidateAuth (st : Store) (auth : TokenStr) (now : Nat) :
    Option AuthStep × AuthOutcome :=
  if auth = .emptyTok then (some .emptyAuth, .unauthorized)
  else
    match repository.GetUserSessionByToken st auth with
    | .error _ => (some .sessionLookup, .unauthorized)
    | .ok _ =>
      match helpers.ValidateToken auth with
      | .error _ => (some .decodeTok, .unauthorized)
      | .ok claim =>
        if now > claim.expiresAt then (some .expiredTok, .unauthorized)
        else (none, .proceed claim)

/-- The user-data message of the ValidateToken remote-procedure response. -/
structure UserData where
  userId : Nat
  username : String
  fullName : String
deriving DecidableEq, Repr

/-- The ValidateToken remote-procedure response envelope: a message and an
optional user-data field. -/
structure TokenResponse where
  message : String
  data : Option UserData := none
deriving DecidableEq, Repr

/-- `TokenValidationHandler.ValidateToken`
(src/internal/api/refresh_token.go, lines 61-93): reject the empty token
with a plain response carrying the message `token is empty`; on a service
failure return a plain response carrying the error text; on success return
the success message with the user data.  The second component is the
transport-level error of the Go return pair: every branch of the source
returns `nil` there. -/
def api.ValidateTokenHandler (st : Store) (token : TokenStr) :
    TokenResponse × Option String :=
  if token = .emptyTok then ({ message := "token is empty" }, none)
  else
    match services.TokenValidation st token with
    | .error e => ({ message := e }, none)
    | .ok claimToken =>
      ({ message := constants.SuccessMessage
         data := some
           { userId := claimToken.userID
             username := claimToken.username
             fullName := claimToken.fullName } },
       none)

/-! ## Claim theorems -/

/-- C1: the claim states that the token `RefreshToken` issues is an access
token, issued with the access kind so that its validity window is the
configured access duration.  Evaluating the code at a concrete refresh
call (access duration 100, refresh duration 10000, refresh at instant 50)
shows the call succeeds and the issued and stored token expires at
50 + 10000 — the refresh validity window — and is not the token that the
access kind would have produced: the source passes the token type
`"refresh_token"` to the generator at line 111 of
src/internal/services/login.go. -/
theorem C1_refresh_issues_refresh_window_token :
    (services.RefreshToken ⟨100, 10000⟩
        ⟨[], [⟨7, 1, .signedTok ⟨1, "alice", "Alice A", "alice@x.com", 0, 100⟩,
               .signedTok ⟨1, "alice", "Alice A", "alice@x.com", 0, 10000⟩,
               100, 10000⟩]⟩
        (.signedTok ⟨1, "alice", "Alice A", "alice@x.com", 0, 10000⟩)
        ⟨1, "alice", "Alice A", "alice@x.com", 0, 10000⟩ 50).2.2 = none ∧
    (services.RefreshToken ⟨100, 10000⟩
        ⟨[], [⟨7, 1, .signedTok ⟨1, "alice", "Alice A", "alice@x.com", 0, 100⟩,
               .signedTok ⟨1, "alice", "Alice A", "alice@x.com", 0, 10000⟩,
               100, 10000⟩]⟩
        (.signedTok ⟨1, "alice", "Alice A", "alice@x.com", 0, 10000⟩)
        ⟨1, "alice", "Alice A", "alice@x.com", 0, 10000⟩ 50).1.token =
      .signedTok ⟨1, "alice", "Alice A", "alice@x.com", 50, 50 + 10000⟩ ∧
    (services.RefreshToken ⟨100, 10000⟩
        ⟨[], [⟨7, 1, .signedTok ⟨1, "alice", "Alice A", "alice@x.com", 0, 100⟩,
               .signedTok ⟨1, "alice", "Alice A", "alice@x.com", 0, 10000⟩,
               100, 10000⟩]⟩
        (.signedTok ⟨1, "alice", "Alice A", "alice@x.com", 0, 10000⟩)
        ⟨1, "alice", "Alice A", "alice@x.com", 0, 10000⟩ 50).1.token ≠
      .signedTok ⟨1, "alice", "Alice A", "alice@x.com", 50, 50 + 100⟩ := by
  refine ⟨rfl, rfl, ?_⟩
  decide

/-- C7: for every token that still decodes as a well-signed claim (with any
embedded expiry — no clock is consulted on this path), running the token
validation service on the store left by `Logout` of that same token fails
with the session-not-found error: the logout deleted every row whose token
column matches, so the session lookup finds none. -/
theorem C7_validate_after_logout_session_not_found (st : Store) (c : ClaimToken) :
    services.TokenValidation (services.Logout st (.signedTok c)).1 (.signedTok c)
      = .error "failed to get user session: record not found" := by
  have hfind :
      ((st.sessions.filter (fun s => decide (s.token ≠ TokenStr.signedTok c))).find?
        (fun s => decide (s.token = TokenStr.signedTok c))) = none := by
    rw [List.find?_eq_none]
    intro x hx
    rcases List.mem_filter.mp hx with ⟨-, hne⟩
    simpa using of_decide_eq_true hne
  simp only [services.Logout, repository.DeleteUserSession, services.TokenValidation,
             helpers.ValidateToken, repository.GetUserSessionByToken]
  rw [hfind]
  rfl

/-- C8: for every store state and every token string, `Logout` succeeds
(reports no error) whether or not a matching session row exists — in
particular without decoding the token at all, so neither signature nor
expiry is validated — and it is idempotent: performing it twice leaves the
store in the same state and returns the same outcome as performing it
once. -/
theorem C8_logout_noop_safe_and_idempotent (st : Store) (t : TokenStr) :
    (services.Logout st t).2 = none ∧
    services.Logout (services.Logout st t).1 t = services.Logout st t := by
  refine ⟨rfl, ?_⟩
  simp [services.Logout, repository.DeleteUserSession, List.filter_filter]

/-- C10: the authentication gate accepts a token whose decoded expiry
equals the current instant, and rejects as expired exactly when the
current instant strictly exceeds the decoded expiry: given a well-signed
token backed by a session row, the gate proceeds if and only if
`now ≤ expiresAt`, and when `expiresAt < now` it stops at the expiry
check with an unauthorized outcome. -/
theorem C10_expiry_check_is_strict (st : Store) (c : ClaimToken)
    (s : UserSession) (now : Nat)
    (hsess : repository.GetUserSessionByToken st (.signedTok c) = .ok s) :
    (cmd.MiddlewareValidateAuth st (.signedTok c) now = (none, .proceed c)
      ↔ now ≤ c.expiresAt) ∧
    (c.expiresAt < now →
      cmd.MiddlewareValidateAuth st (.signedTok c) now
        = (some .expiredTok, .unauthorized)) := by
  constructor
  · by_cases h : c.expiresAt < now
    · simp [cmd.MiddlewareValidateAuth, hsess, helpers.ValidateToken, h]
    · simp [cmd.MiddlewareValidateAuth, hsess, helpers.ValidateToken, h]
      omega
  · intro h
    simp [cmd.MiddlewareValidateAuth, hsess, helpers.ValidateToken, h]

/-- Witness for C10 at a concrete store and claim whose expiry is exactly
the current instant: the gate proceeds. -/
theorem C10_expiry_check_is_strict_witness :
    cmd.MiddlewareValidateAuth
      ⟨[], [⟨1, 1, .signedTok ⟨1, "a", "A", "a@x", 0, 100⟩, .emptyTok, 100, 200⟩]⟩
      (.signedTok ⟨1, "a", "A", "a@x", 0, 100⟩) 100
      = (none, .proceed ⟨1, "a", "A", "a@x", 0, 100⟩) :=
  ((C10_expiry_check_is_strict
      ⟨[], [⟨1, 1, .signedTok ⟨1, "a", "A", "a@x", 0, 100⟩, .emptyTok, 100, 200⟩]⟩
      ⟨1, "a", "A", "a@x", 0, 100⟩
      ⟨1, 1, .signedTok ⟨1, "a", "A", "a@x", 0, 100⟩, .emptyTok, 100, 200⟩ 100
      (by rfl)).1).mpr (by decide)

/-- C3: the authentication gate performs its checks in this order, stopping
with an unauthorized outcome at the first failing one — (1) non-empty
bearer credential, (2) a session row matching the presented token,
(3) successful decode, (4) decoded expiry not in the past — and proceeds
with the decoded claim exactly when all four pass.  The step recorded by
the gate identifies which check tripped. -/
theorem C3_gate_checks_in_order_and_stops (st : Store) (auth : TokenStr)
    (now : Nat) :
    (auth = .emptyTok →
      cmd.MiddlewareValidateAuth st auth now
        = (some .emptyAuth, .unauthorized)) ∧
    (∀ e, auth ≠ .emptyTok →
      repository.GetUserSessionByToken st auth = .error e →
      cmd.MiddlewareValidateAuth st auth now
        = (some .sessionLookup, .unauthorized)) ∧
    (∀ s e, auth ≠ .emptyTok →
      repository.GetUserSessionByToken st auth = .ok s →
      helpers.ValidateToken auth = .error e →
      cmd.MiddlewareValidateAuth st auth now
        = (some .decodeTok, .unauthorized)) ∧
    (∀ s c, auth ≠ .emptyTok →
      repository.GetUserSessionByToken st auth = .ok s →
      helpers.ValidateToken auth = .ok c → c.expiresAt < now →
      cmd.MiddlewareValidateAuth st auth now
        = (some .expiredTok, .unauthorized)) ∧
    (∀ s c, auth ≠ .emptyTok →
      repository.GetUserSessionByToken st auth = .ok s →
      helpers.ValidateToken auth = .ok c → now ≤ c.expiresAt →
      cmd.MiddlewareValidateAuth st auth now = (none, .proceed c)) := by
  refine ⟨?_, ?_, ?_, ?_, ?_⟩
  · intro h
    simp [cmd.MiddlewareValidateAuth, h]
  · intro e h he
    simp [cmd.MiddlewareValidateAuth, h, he]
  · intro s e h hs he
    simp [cmd.MiddlewareValidateAuth, h, hs, he]
  · intro s c h hs hc hexp
    simp [cmd.MiddlewareValidateAuth, h, hs, hc, hexp]
  · intro s c h hs hc hexp
    have hnot : ¬ now > c.expiresAt := by omega
    simp [cmd.MiddlewareValidateAuth, h, hs, hc, hnot]

/-- Witness for C3 at a concrete store, well-signed backed token and
instant: all four checks pass and the gate proceeds with the claim. -/
theorem C3_gate_checks_in_order_and_stops_witness :
    cmd.MiddlewareValidateAuth
      ⟨[], [⟨1, 1, .signedTok ⟨1, "a", "A", "a@x", 0, 100⟩, .emptyTok, 100, 200⟩]⟩
      (.signedTok ⟨1, "a", "A", "a@x", 0, 100⟩) 7
      = (none, .proceed ⟨1, "a", "A", "a@x", 0, 100⟩) :=
  (C3_gate_checks_in_order_and_stops
      ⟨[], [⟨1, 1, .signedTok ⟨1, "a", "A", "a@x", 0, 100⟩, .emptyTok, 100, 200⟩]⟩
      (.signedTok ⟨1, "a", "A", "a@x", 0, 100⟩) 7).2.2.2.2
    ⟨1, 1, .signedTok ⟨1, "a", "A", "a@x", 0, 100⟩, .emptyTok, 100, 200⟩
    ⟨1, "a", "A", "a@x", 0, 100⟩ (by decide) (by rfl) (by rfl) (by decide)

/-- C4: the remote-procedure ValidateToken path checks, in order: an empty
input fails with the empty-token message; otherwise a decode failure of
the codec is propagated (wrapped with the validate-token prefix);
otherwise, when no session row has the presented token, it fails with the
wrapped session-not-found message; otherwise it returns the decoded claim
in the success response.  No clock is consulted anywhere on this path, so
no expiry re-check takes place. -/
theorem C4_validate_token_failure_order (st : Store) (t : TokenStr) :
    (t = .emptyTok →
      api.ValidateTokenHandler st t = ({ message := "token is empty" }, none)) ∧
    (∀ e, t ≠ .emptyTok → helpers.ValidateToken t = .error e →
      api.ValidateTokenHandler st t
        = ({ message := "failed to validate token: " ++ e }, none)) ∧
    (∀ c e, t ≠ .emptyTok → helpers.ValidateToken t = .ok c →
      repository.GetUserSessionByToken st t = .error e →
      api.ValidateTokenHandler st t
        = ({ message := "failed to get user session: " ++ e }, none)) ∧
    (∀ c s, t ≠ .emptyTok → helpers.ValidateToken t = .ok c →
      repository.GetUserSessionByToken st t = .ok s →
      api.ValidateTokenHandler st t
        = ({ message := constants.SuccessMessage
             data := some ⟨c.userID, c.username, c.fullName⟩ }, none)) := by
  refine ⟨?_, ?_, ?_, ?_⟩
  · intro h
    simp [api.ValidateTokenHandler, h]
  · intro e h he
    simp [api.ValidateTokenHandler, services.TokenValidation, h, he]
  · intro c e h hc he
    simp [api.ValidateTokenHandler, services.TokenValidation, h, hc, he]
  · intro c s h hc hs
    simp [api.ValidateTokenHandler, services.TokenValidation, h, hc, hs]

/-- Witness for C4 at a concrete token backed by a session row: the success
response carries the decoded claim. -/
theorem C4_validate_token_failure_order_witness :
    api.ValidateTokenHandler
      ⟨[], [⟨1, 1, .signedTok ⟨1, "a", "A", "a@x", 0, 100⟩, .emptyTok, 100, 200⟩]⟩
      (.signedTok ⟨1, "a", "A", "a@x", 0, 100⟩)
      = ({ message := constants.SuccessMessage
           data := some ⟨1, "a", "A"⟩ }, none) :=
  (C4_validate_token_failure_order
      ⟨[], [⟨1, 1, .signedTok ⟨1, "a", "A", "a@x", 0, 100⟩, .emptyTok, 100, 200⟩]⟩
      (.signedTok ⟨1, "a", "A", "a@x", 0, 100⟩)).2.2.2
    ⟨1, "a", "A", "a@x", 0, 100⟩
    ⟨1, 1, .signedTok ⟨1, "a", "A", "a@x", 0, 100⟩, .emptyTok, 100, 200⟩
    (by decide) (by rfl) (by rfl)

/-- C9: the remote-procedure ValidateToken handler never returns a
transport-level error — the error component of the Go return pair is `nil`
on every branch.  On the empty token or a service failure the response
message carries the failure description and the user-data field is absent;
on success the user-data fields are populated from the claim alongside the
success message. -/
theorem C9_rpc_handler_never_transport_error (st : Store) (t : TokenStr) :
    (api.ValidateTokenHandler st t).2 = none ∧
    (t = .emptyTok →
      (api.ValidateTokenHandler st t).1
        = { message := "token is empty", data := none }) ∧
    (∀ e, t ≠ .emptyTok → services.TokenValidation st t = .error e →
      (api.ValidateTokenHandler st t).1 = { message := e, data := none }) ∧
    (∀ c, t ≠ .emptyTok → services.TokenValidation st t = .ok c →
      (api.ValidateTokenHandler st t).1
        = { message := constants.SuccessMessage
            data := some ⟨c.userID, c.username, c.fullName⟩ }) := by
  refine ⟨?_, ?_, ?_, ?_⟩
  · by_cases h : t = .emptyTok
    · simp [api.ValidateTokenHandler, h]
    · cases hv : services.TokenValidation st t with
      | error e => simp [api.ValidateTokenHandler, h, hv]
      | ok c => simp [api.ValidateTokenHandler, h, hv]
  · intro h
    simp [api.ValidateTokenHandler, h]
  · intro e h he
    simp [api.ValidateTokenHandler, h, he]
  · intro c h hc
    simp [api.ValidateTokenHandler, h, hc]

/-- Witness for C9 at a concrete never-stored token: the handler returns a
plain response with the wrapped session-not-found message, no user data,
and no transport-level error. -/
theorem C9_rpc_handler_never_transport_error_witness :
    (api.ValidateTokenHandler ⟨[], []⟩
        (.signedTok ⟨1, "a", "A", "a@x", 0, 100⟩)).1
      = { message := "failed to get user session: record not found"
          data := none } :=
  (C9_rpc_handler_never_transport_error ⟨[], []⟩
      (.signedTok ⟨1, "a", "A", "a@x", 0, 100⟩)).2.2.1
    "failed to get user session: record not found" (by decide) (by rfl)

/-- C5: a successful login at instant `now` issues the access and the
refresh token stamped with the same instant `now` (both payloads carry
`issuedAt = now`), the access token expiring at `now + accessDuration` and
the refresh token at `now + refreshDuration`; it appends a session row
holding both tokens with exactly those expiries, and returns the account
id, username, full name, email and both tokens. -/
theorem C5_login_success_issues_pair (verify : String → String → Bool)
    (cfg : TokenConfig) (st : Store) (req : LoginRequest) (now : Nat)
    (user : User)
    (hu : repository.GetUserByUsername st req.username = .ok user)
    (hpw : verify user.password req.password = true) :
    services.Login verify cfg st req now =
      ({ userID := user.id
         username := user.username
         fullName := user.fullName
         email := user.email
         token := .signedTok
           ⟨user.id, user.username, user.fullName, user.email, now,
            now + cfg.accessDuration⟩
         refreshToken := .signedTok
           ⟨user.id, user.username, user.fullName, user.email, now,
            now + cfg.refreshDuration⟩ },
       { st with sessions := st.sessions ++
           [⟨st.sessions.length + 1, user.id,
             .signedTok ⟨user.id, user.username, user.fullName, user.email,
               now, now + cfg.accessDuration⟩,
             .signedTok ⟨user.id, user.username, user.fullName, user.email,
               now, now + cfg.refreshDuration⟩,
             now + cfg.accessDuration, now + cfg.refreshDuration⟩] },
       none) := by
  simp [services.Login, hu, hpw, helpers.GenerateToken, helpers.MapTypeToken,
        repository.InsertNewUserSession]

/-- Witness for C5: a concrete login against a one-user store, with the
bcrypt comparison instantiated as plain equality of the stored hash and
the candidate. -/
theorem C5_login_success_issues_pair_witness :
    services.Login (fun s c => decide (s = c)) ⟨100, 10000⟩
      ⟨[⟨1, "alice", "Alice", "a@x", "hpw"⟩], []⟩ ⟨"alice", "hpw"⟩ 5 =
      ({ userID := 1
         username := "alice"
         fullName := "Alice"
         email := "a@x"
         token := .signedTok ⟨1, "alice", "Alice", "a@x", 5, 105⟩
         refreshToken := .signedTok ⟨1, "alice", "Alice", "a@x", 5, 10005⟩ },
       ⟨[⟨1, "alice", "Alice", "a@x", "hpw"⟩],
        [⟨1, 1, .signedTok ⟨1, "alice", "Alice", "a@x", 5, 105⟩,
          .signedTok ⟨1, "alice", "Alice", "a@x", 5, 10005⟩, 105, 10005⟩]⟩,
       none) :=
  C5_login_success_issues_pair (fun s c => decide (s = c)) ⟨100, 10000⟩
    ⟨[⟨1, "alice", "Alice", "a@x", "hpw"⟩], []⟩ ⟨"alice", "hpw"⟩ 5
    ⟨1, "alice", "Alice", "a@x", "hpw"⟩ (by rfl) (by rfl)

/-- C6: when the account lookup fails, login fails with the wrapped
account-lookup error, and the candidate password is never checked — the
result does not depend on the injected password verifier at all; when the
account exists but the verifier rejects the candidate, login fails with
the incorrect-password error.  In both failure cases the returned response
is the zero response and the store is unchanged, so no session row is
created. -/
theorem C6_login_failure_paths (verify verify2 : String → String → Bool)
    (cfg : TokenConfig) (st : Store) (req : LoginRequest) (now : Nat) :
    (∀ e, repository.GetUserByUsername st req.username = .error e →
      services.Login verify cfg st req now
        = ({}, st, some ("failed to get user by username, " ++ e)) ∧
      services.Login verify cfg st req now
        = services.Login verify2 cfg st req now) ∧
    (∀ user, repository.GetUserByUsername st req.username = .ok user →
      verify user.password req.password = false →
      services.Login verify cfg st req now
        = ({}, st, some "incorrect password")) := by
  constructor
  · intro e he
    constructor
    · simp [services.Login, he]
    · simp [services.Login, he]
  · intro user hu hpw
    simp [services.Login, hu, hpw]

/-- Witness for C6: a concrete login against an empty store fails with the
wrapped record-not-found error, returning the zero response and leaving
the store unchanged. -/
theorem C6_login_failure_paths_witness :
    services.Login (fun s c => decide (s = c)) ⟨100, 10000⟩ ⟨[], []⟩
      ⟨"bob", "x"⟩ 0
      = (⟨0, "", "", "", .emptyTok, .emptyTok⟩, ⟨[], []⟩,
         some "failed to get user by username, record not found") :=
  ((C6_login_failure_paths (fun s c => decide (s = c)) (fun _ _ => true)
      ⟨100, 10000⟩ ⟨[], []⟩ ⟨"bob", "x"⟩ 0).1 "record not found" (by rfl)).1

/-- C2: a successful refresh against a store containing a row whose
refresh-token column equals the presented value reports no error, leaves
the users table untouched, and rewrites the sessions table so that every
row keeps its identifier, owning account id, refresh token and both expiry
columns, with only the access-token field of the matching row replaced by
the returned token; and the returned token differs from the access token
the matching row held, given that the held token was issued at some
instant `t0` no later than `now` with the access validity window and that
the configured access duration is smaller than the refresh duration. -/
theorem C2_refresh_replaces_only_access_token (cfg : TokenConfig)
    (st : Store) (rt : TokenStr) (claim : ClaimToken) (now : Nat)
    (s : UserSession) (c0 : ClaimToken) (t0 : Nat)
    (hs : s ∈ st.sessions) (hrt : s.refreshToken = rt)
    (hold : s.token = .signedTok c0)
    (hexp : c0.expiresAt = t0 + cfg.accessDuration)
    (ht : t0 ≤ now) (hlt : cfg.accessDuration < cfg.refreshDuration) :
    (services.RefreshToken cfg st rt claim now).2.2 = none ∧
    (services.RefreshToken cfg st rt claim now).2.1.users = st.users ∧
    (services.RefreshToken cfg st rt claim now).2.1.sessions
      = st.sessions.map (fun x =>
          if x.refreshToken = rt
          then { x with
                 token := (services.RefreshToken cfg st rt claim now).1.token }
          else x) ∧
    (services.RefreshToken cfg st rt claim now).1.token ≠ s.token := by
  have hany : st.sessions.any (fun x => decide (x.refreshToken = rt)) = true :=
    List.any_eq_true.mpr ⟨s, hs, by simp [hrt]⟩
  have hrun : services.RefreshToken cfg st rt claim now =
      ({ token := helpers.GenerateToken cfg claim.userID claim.username
           claim.fullName "refresh_token" claim.email now },
       { st with sessions := st.sessions.map (fun x =>
           if x.refreshToken = rt
           then { x with
                  token := helpers.GenerateToken cfg claim.userID
                    claim.username claim.fullName "refresh_token"
                    claim.email now }
           else x) },
       none) := by
    simp only [services.RefreshToken, repository.UpdateTokenByRefreshToken, hany,
               if_true]
  rw [hrun]
  refine ⟨rfl, rfl, rfl, ?_⟩
  rw [hold]
  intro hEq
  simp only [helpers.GenerateToken, TokenStr.signedTok.injEq] at hEq
  have h2 : now + helpers.MapTypeToken cfg "refresh_token" = c0.expiresAt :=
    congrArg ClaimToken.expiresAt hEq
  rw [show helpers.MapTypeToken cfg "refresh_token" = cfg.refreshDuration
      from rfl] at h2
  omega

/-- Witness for C2: a concrete refresh at instant 50 against a store whose
single row holds an access token issued at instant 0 with access duration
100 and refresh duration 10000. -/
theorem C2_refresh_replaces_only_access_token_witness :
    (services.RefreshToken ⟨100, 10000⟩
        ⟨[], [⟨7, 1, .signedTok ⟨1, "a", "A", "a@x", 0, 100⟩,
               .signedTok ⟨1, "a", "A", "a@x", 0, 10000⟩, 100, 10000⟩]⟩
        (.signedTok ⟨1, "a", "A", "a@x", 0, 10000⟩)
        ⟨1, "a", "A", "a@x", 0, 10000⟩ 50).2.2 = none ∧
    (services.RefreshToken ⟨100, 10000⟩
        ⟨[], [⟨7, 1, .signedTok ⟨1, "a", "A", "a@x", 0, 100⟩,
               .signedTok ⟨1, "a", "A", "a@x", 0, 10000⟩, 100, 10000⟩]⟩
        (.signedTok ⟨1, "a", "A", "a@x", 0, 10000⟩)
        ⟨1, "a", "A", "a@x", 0, 10000⟩ 50).2.1.users = [] ∧
    (services.RefreshToken ⟨100, 10000⟩
        ⟨[], [⟨7, 1, .signedTok ⟨1, "a", "A", "a@x", 0, 100⟩,
               .signedTok ⟨1, "a", "A", "a@x", 0, 10000⟩, 100, 10000⟩]⟩
        (.signedTok ⟨1, "a", "A", "a@x", 0, 10000⟩)
        ⟨1, "a", "A", "a@x", 0, 10000⟩ 50).2.1.sessions
      = [⟨7, 1, .signedTok ⟨1, "a", "A", "a@x", 0, 100⟩,
          .signedTok ⟨1, "a", "A", "a@x", 0, 10000⟩, 100,
          10000⟩].map (fun x =>
            if x.refreshToken = .signedTok ⟨1, "a", "A", "a@x", 0, 10000⟩
            then { x with
                   token := (services.RefreshToken ⟨100, 10000⟩
                     ⟨[], [⟨7, 1, .signedTok ⟨1, "a", "A", "a@x", 0, 100⟩,
                            .signedTok ⟨1, "a", "A", "a@x", 0, 10000⟩,
                            100, 10000⟩]⟩
                     (.signedTok ⟨1, "a", "A", "a@x", 0, 10000⟩)
                     ⟨1, "a", "A", "a@x", 0, 10000⟩ 50).1.token }
            else x) ∧
    (services.RefreshToken ⟨100, 10000⟩
        ⟨[], [⟨7, 1, .signedTok ⟨1, "a", "A", "a@x", 0, 100⟩,
               .signedTok ⟨1, "a", "A", "a@x", 0, 10000⟩, 100, 10000⟩]⟩
        (.signedTok ⟨1, "a", "A", "a@x", 0, 10000⟩)
        ⟨1, "a", "A", "a@x", 0, 10000⟩ 50).1.token ≠
      .signedTok ⟨1, "a", "A", "a@x", 0, 100⟩ :=
  C2_refresh_replaces_only_access_token ⟨100, 10000⟩
    ⟨[], [⟨7, 1, .signedTok ⟨1, "a", "A", "a@x", 0, 100⟩,
           .signedTok ⟨1, "a", "A", "a@x", 0, 10000⟩, 100, 10000⟩]⟩
    (.signedTok ⟨1, "a", "A", "a@x", 0, 10000⟩)
    ⟨1, "a", "A", "a@x", 0, 10000⟩ 50
    ⟨7, 1, .signedTok ⟨1, "a", "A", "a@x", 0, 100⟩,
     .signedTok ⟨1, "a", "A", "a@x", 0, 10000⟩, 100, 10000⟩
    ⟨1, "a", "A", "a@x", 0, 100⟩ 0
    (by decide) (by rfl) (by rfl) (by rfl) (by decide) (by decide)
